import Mathlib

/-!
Verification of the TMC-File-Transfer file-lifecycle core against its
natural-language specification.

The definitions below are a shallow embedding of the TypeScript source:

* `functions/api/transfer/validate/[fileId].ts` (the `authorize` endpoint)
* `functions/api/transfer/download/[fileId].ts` (the download endpoint)
* `functions/api/transfer/upload-multipart.ts` (the chunked-upload coordinator)
* the simple upload endpoint (Turnstile variant, `options.maxDownloads`
  defaulting at the metadata INSERT)
* `CleanupWorker/src/index.ts` (the garbage collector)

The metadata store (D1 table `uploads_v2`) is modelled as a `List FileRecord`;
the object store (R2 bucket) as the list of keys it currently holds plus the
list of open multipart sessions.  External collaborators that the code treats
as black boxes — the password hash, the object store's accept/reject behaviour
on multipart completion and abort, per-object delete success, and the wall
clock — are passed in as function parameters, mirroring the call sites.
JavaScript truthiness that matters to the control flow (`0`, `''` and
`undefined` are falsy) is embedded explicitly where the source relies on it.
-/

namespace TMC

/-- One row of the `uploads_v2` table.  Field names follow the columns:
`file_id`, `file_name` (the storage key), `original_name`, `file_size`,
`content_type`, `expires_at` (unix seconds), `download_count`,
`max_downloads`, `has_password`, `password_hash`, `salt`, `is_one_time`,
`upload_status`, `multipart_upload_id`.  SQL NULL on the two nullable text
columns is modelled as `""` and `none`. -/
structure FileRecord where
  fileId : String
  fileName : String
  originalName : String
  fileSize : Nat
  contentType : String
  expiresAt : Int
  downloadCount : Nat
  maxDownloads : Nat
  hasPassword : Bool
  passwordHash : String
  salt : String
  isOneTime : Bool
  uploadStatus : String
  multipartUploadId : Option String
deriving DecidableEq, Repr

/-- The shared mutable state: the metadata rows, the object keys present in
the bucket, and the open multipart upload sessions of the object store. -/
structure Stores where
  db : List FileRecord
  bucket : List String
  sessions : List String
deriving DecidableEq, Repr

/-- The D1 lookup `SELECT ... FROM uploads_v2 WHERE file_id = ?` followed by
`.first()`. -/
def findRecord (db : List FileRecord) (fid : String) : Option FileRecord :=
  db.find? (fun r => r.fileId == fid)

/-- Hex-digit test for one character of the fileId pattern, case-insensitive
(the source regex carries the `i` flag). -/
def isHexChar (c : Char) : Bool :=
  c.isDigit || ('a' ≤ c && c ≤ 'f') || ('A' ≤ c && c ≤ 'F')

/-- The fileId guard used by both the validate and the download endpoint:
`/^[0-9a-f]\x7b8\x7d-[0-9a-f]\x7b4\x7d-[0-9a-f]\x7b4\x7d-[0-9a-f]\x7b4\x7d-[0-9a-f]\x7b12\x7d$/i`,
i.e. 36 characters, hyphens exactly at positions 8, 13, 18 and 23, hex digits
everywhere else. -/
def uuidShape (s : String) : Bool :=
  let cs := s.toList
  cs.length == 36 &&
    (List.range 36).all (fun i =>
      if i == 8 || i == 13 || i == 18 || i == 23 then cs.getD i ' ' == '-'
      else isHexChar (cs.getD i ' '))

/-- The `AccessDecision` variants of the Access Control Gate. -/
inductive AccessDecision where
  | notFound
  | expired
  | consumed
  | limitReached
  | passwordRequired
  | invalidPassword
  | granted
deriving DecidableEq, Repr

/-- Result of the validate endpoint (`validate/[fileId].ts`, `onRequestPost`):
either the fileId guard fires, or an error decision is returned, or the
success JSON with the record's metadata. -/
inductive ValidateOutcome where
  | invalidFileId
  | err (d : AccessDecision)
  | ok (r : FileRecord)
deriving DecidableEq, Repr

/-- The validate endpoint, `onRequestPost` of `validate/[fileId].ts`.
The check chain is translated line by line: missing/empty fileId, the UUID
regex, the `WHERE file_id = ?` lookup (note: no `upload_status` filter),
expiry, one-time consumption, download limit, then the password checks.
JS `!requestData.password` is true for both `undefined` and `""`, hence the
`pw.getD "" == ""` test.  `hash` stands for the SHA-256 helper
`hashPassword(password, salt)`, a black box here. -/
def validatePost (hash : String → String → String) (db : List FileRecord)
    (now : Int) (fid : String) (pw : Option String) : ValidateOutcome :=
  if fid == "" then .invalidFileId
  else if !(uuidShape fid) then .invalidFileId
  else match findRecord db fid with
  | none => .err .notFound
  | some r =>
    if decide (r.expiresAt < now) then .err .expired
    else if r.isOneTime && decide (0 < r.downloadCount) then .err .consumed
    else if decide (r.maxDownloads ≤ r.downloadCount) then .err .limitReached
    else if r.hasPassword && (pw.getD "" == "") then .err .passwordRequired
    else if r.hasPassword && !(hash (pw.getD "") r.salt == r.passwordHash) then .err .invalidPassword
    else .ok r

/-- JS truthiness of a number: `0` is falsy, everything else truthy. -/
def numTruthy (n : Nat) : Bool := n != 0

/-- The failure guard after the conditional download-count UPDATE in
`download/[fileId].ts`:
`!updateResult.success || (updateResult.meta?.changes && updateResult.meta.changes === 0)`.
The second disjunct is the JS expression `changes && changes === 0`, whose
value is falsy whenever `changes` is `0` (the left operand short-circuits),
so the whole guard is decided exactly as written here. -/
def downloadGuardFires (success : Bool) (changes : Nat) : Bool :=
  !success || (numTruthy changes && changes == 0)

/-- The conditional update
`UPDATE uploads_v2 SET download_count = download_count + 1 WHERE file_id = ? AND download_count < max_downloads`:
returns the updated table together with the number of affected rows
(`meta.changes`). -/
def conditionalIncrement (db : List FileRecord) (fid : String) :
    List FileRecord × Nat :=
  let hit := fun (r : FileRecord) => r.fileId == fid && decide (r.downloadCount < r.maxDownloads)
  (db.map (fun r =>
      if hit r then { r with downloadCount := r.downloadCount + 1 } else r),
   (db.filter hit).length)

/-- Result of the download endpoint (`download/[fileId].ts`, `onRequestPost`). -/
inductive DownloadOutcome where
  | invalidFileId
  | notFound
  | expired
  | consumed
  | limitReached
  | passwordRequired
  | invalidPassword
  | notFoundInStorage
  | downloadFailed
  | body (r : FileRecord)
deriving DecidableEq, Repr

/-- The download endpoint, `onRequestPost` of `download/[fileId].ts`,
returning the response outcome and the state after the request.  Order of
operations as in the source: fileId guards, metadata lookup (again with no
`upload_status` filter), the same check chain as validate, then the R2 `get`
on `file_name` — a miss deletes the metadata row and returns 404 — then the
conditional count UPDATE guarded by `downloadGuardFires`, and finally the
object body is streamed.  The UPDATE itself succeeding is modelled as
`success = true`; infrastructure failures are out of scope. -/
def downloadPost (hash : String → String → String) (st : Stores)
    (now : Int) (fid : String) (pw : Option String) : DownloadOutcome × Stores :=
  if fid == "" then (.invalidFileId, st)
  else if !(uuidShape fid) then (.invalidFileId, st)
  else match findRecord st.db fid with
  | none => (.notFound, st)
  | some r =>
    if decide (r.expiresAt < now) then (.expired, st)
    else if r.isOneTime && decide (0 < r.downloadCount) then (.consumed, st)
    else if decide (r.maxDownloads ≤ r.downloadCount) then (.limitReached, st)
    else if r.hasPassword && (pw.getD "" == "") then (.passwordRequired, st)
    else if r.hasPassword && !(hash (pw.getD "") r.salt == r.passwordHash) then (.invalidPassword, st)
    else if st.bucket.contains r.fileName then
      let upd := conditionalIncrement st.db fid
      if downloadGuardFires true upd.2 then (.downloadFailed, { st with db := upd.1 })
      else (.body r, { st with db := upd.1 })
    else
      (.notFoundInStorage,
       { st with db := st.db.filter (fun r2 => !(r2.fileId == fid)) })

/-- Modelled from the spec: the fixed short-circuit evaluation order claimed
for `authorize` — non-existence gives NotFound, then expiry, one-time
consumption, the download limit, missing credential, wrong credential, and
otherwise Granted.  This definition follows the claim's wording and is
compared against the two endpoint embeddings above. -/
def authorizeSpec (hash : String → String → String) (db : List FileRecord)
    (now : Int) (fid : String) (cred : Option String) : AccessDecision :=
  match findRecord db fid with
  | none => .notFound
  | some r =>
    if decide (r.expiresAt < now) then .expired
    else if r.isOneTime && decide (0 < r.downloadCount) then .consumed
    else if decide (r.maxDownloads ≤ r.downloadCount) then .limitReached
    else if r.hasPassword && cred.isNone then .passwordRequired
    else if r.hasPassword && !(hash (cred.getD "") r.salt == r.passwordHash) then .invalidPassword
    else .granted

/-- Embedding of a non-Granted access decision into the download endpoint's
outcome type (the Granted case never arises where this is used). -/
def outcomeOfDecision : AccessDecision → DownloadOutcome
  | .notFound => .notFound
  | .expired => .expired
  | .consumed => .consumed
  | .limitReached => .limitReached
  | .passwordRequired => .passwordRequired
  | .invalidPassword => .invalidPassword
  | .granted => .downloadFailed

/-- Chunk size used by the multipart coordinator: `50 * 1024 * 1024`. -/
def CHUNK_SIZE : Nat := 50 * 1024 * 1024

/-- JS `x || d` applied to an optional number: `undefined` and `0` are falsy
and select the default. -/
def jsOrNat (x : Option Nat) (d : Nat) : Nat :=
  match x with
  | none => d
  | some n => if n == 0 then d else n

/-- The `options` object of an initiate-multipart request:
`lifetime` models `parseInt(options.lifetime || '7')` as an optional day
count, `password` and `maxDownloads` are optional. -/
structure ChunkedOptions where
  lifetime : Option Nat
  password : Option String
  maxDownloads : Option Nat
deriving DecidableEq, Repr

/-- An initiate-multipart request body (`MultipartUploadRequest`). -/
structure MultipartUploadRequest where
  fileName : String
  fileSize : Nat
  contentType : String
  options : ChunkedOptions
deriving DecidableEq, Repr

/-- The response data returned by `initiateMultipartUpload`. -/
structure InitiateResponse where
  fileId : String
  uploadId : String
  chunkSize : Nat
  totalChunks : Nat
  expiresAt : Int
deriving DecidableEq, Repr

/-- `initiateMultipartUpload` of `upload-multipart.ts`: the row INSERTed into
`uploads_v2` and the response JSON.  The randomly generated identifiers
(`fileId`, `storageName`, the R2 `uploadId`, the salt) are parameters, as is
the password hash primitive.  Size/content-type/password validation happens
before this point and returns early; the claims quantify over requests that
pass it.  Faithful details: `expiresAt` is computed HERE, at initiation, as
`now + lifetime * 24*60*60`; `max_downloads` is bound to
`data.options?.maxDownloads || 10`; the INSERT's column list has no
`is_one_time`, so the row gets the schema default `FALSE`; `upload_status`
is bound to `'uploading'`; `totalChunks = ceil(fileSize / CHUNK_SIZE)`. -/
def initiateMultipartUpload (hash : String → String → String)
    (fid storageName uploadId salt : String)
    (req : MultipartUploadRequest) (now : Int) : FileRecord × InitiateResponse :=
  let lifetime := jsOrNat req.options.lifetime 7
  let expiresAt : Int := now + (lifetime : Int) * 24 * 60 * 60
  let hasPassword := req.options.password.isSome
  let passwordHash := match req.options.password with
    | some p => hash p salt
    | none => ""
  let storedSalt := match req.options.password with
    | some _ => salt
    | none => ""
  ({ fileId := fid
     fileName := storageName
     originalName := req.fileName
     fileSize := req.fileSize
     contentType := req.contentType
     expiresAt := expiresAt
     downloadCount := 0
     maxDownloads := jsOrNat req.options.maxDownloads 10
     hasPassword := hasPassword
     passwordHash := passwordHash
     salt := storedSalt
     isOneTime := false
     uploadStatus := "uploading"
     multipartUploadId := some uploadId },
   { fileId := fid
     uploadId := uploadId
     chunkSize := CHUNK_SIZE
     totalChunks := (req.fileSize + CHUNK_SIZE - 1) / CHUNK_SIZE
     expiresAt := expiresAt })

/-- One entry of the `parts` array sent to `completeMultipartUpload`. -/
structure Part where
  partNumber : Nat
  etag : String
deriving DecidableEq, Repr

/-- The row predicate of
`SELECT ... WHERE multipart_upload_id = ? AND upload_status = 'uploading'`,
shared by the upload-chunk, complete and abort actions. -/
def uploadingRow (uploadId : String) (r : FileRecord) : Bool :=
  r.multipartUploadId == some uploadId && r.uploadStatus == "uploading"

/-- `UPDATE uploads_v2 SET upload_status = ? WHERE multipart_upload_id = ?`. -/
def setUploadStatus (db : List FileRecord) (uploadId status : String) :
    List FileRecord :=
  db.map (fun r =>
    if r.multipartUploadId == some uploadId then { r with uploadStatus := status } else r)

/-- Result of the complete-multipart action. -/
inductive CompleteOutcome where
  | missingInput
  | uploadNotFound
  | completed (fileId : String)
  | completeFailed
deriving DecidableEq, Repr

/-- `completeMultipartUpload` of `upload-multipart.ts`.  The function looks
up the `'uploading'` row for the uploadId, calls
`multipartUpload.complete(parts)` with the caller's parts array exactly as
received — there is no completeness validation and no sorting in this
function — and then sets `upload_status` to `'completed'`, or to `'failed'`
when the object store throws.  `storeAccepts` is the store's behaviour on the
completion call; the third component records the parts list passed to the
store (`none` when the store was never called). -/
def completeMultipartUpload (storeAccepts : List Part → Bool)
    (db : List FileRecord) (uploadId : String) (parts : List Part) :
    CompleteOutcome × List FileRecord × Option (List Part) :=
  if uploadId == "" then (.missingInput, db, none)
  else match db.find? (uploadingRow uploadId) with
  | none => (.uploadNotFound, db, none)
  | some r =>
    if storeAccepts parts then
      (.completed r.fileId, setUploadStatus db uploadId "completed", some parts)
    else
      (.completeFailed, setUploadStatus db uploadId "failed", some parts)

/-- Result of the abort-multipart action. -/
inductive AbortOutcome where
  | missingUploadId
  | uploadNotFound
  | aborted
  | abortFailed
deriving DecidableEq, Repr

/-- `abortMultipartUpload` of `upload-multipart.ts`.  It looks up the row
with `upload_status = 'uploading'` — a missing row (already aborted, already
completed, or in the `'failed'` state) returns the 404 "Upload not found"
response — then calls the store's abort (`abortOk`), and on success runs
`DELETE FROM uploads_v2 WHERE multipart_upload_id = ?` and the session is
gone from the object store. -/
def abortMultipartUpload (abortOk : String → Bool) (st : Stores)
    (uploadId : String) : AbortOutcome × Stores :=
  if uploadId == "" then (.missingUploadId, st)
  else match st.db.find? (uploadingRow uploadId) with
  | none => (.uploadNotFound, st)
  | some _ =>
    if abortOk uploadId then
      (.aborted,
       { st with
         db := st.db.filter (fun r => !(r.multipartUploadId == some uploadId))
         sessions := st.sessions.filter (fun s => !(s == uploadId)) })
    else (.abortFailed, st)

/-- The `options` JSON of a simple-upload request (`FileUploadRequest`). -/
structure SimpleOptions where
  lifetime : String
  passwordEnabled : Bool
  password : Option String
  maxDownloads : Option Nat
  onetimeDownload : Bool
deriving DecidableEq, Repr

/-- `getLifetimeSeconds` of the simple upload endpoint. -/
def getLifetimeSeconds (lifetime : String) : Nat :=
  if lifetime == "1" then 86400
  else if lifetime == "7" then 604800
  else if lifetime == "30" then 2592000
  else 604800

/-- The row INSERTed into `uploads_v2` by the simple upload endpoint
(Turnstile variant), after the R2 `put` has succeeded.  Faithful details:
`expires_at = completionTime + getLifetimeSeconds(lifetime)` where
`completionTime` is taken AFTER the successful upload;
`max_downloads = options.maxDownloads || (options.onetimeDownload ? 1 : 999999)`
(so `0` and absent both select the default); `is_one_time` is bound to
`options.onetimeDownload`; the column list has no `upload_status`, so the
schema default `'completed'` applies. -/
def simpleUploadRecord (hash : String → String → String)
    (fid fileName : String) (origName : String) (fileSize : Nat)
    (contentType : String) (salt : String) (completionTime : Int)
    (opts : SimpleOptions) : FileRecord :=
  let passwordHash := match opts.passwordEnabled, opts.password with
    | true, some p => hash p salt
    | _, _ => ""
  { fileId := fid
    fileName := fileName
    originalName := origName
    fileSize := fileSize
    contentType := contentType
    expiresAt := completionTime + (getLifetimeSeconds opts.lifetime : Int)
    downloadCount := 0
    maxDownloads := jsOrNat opts.maxDownloads (if opts.onetimeDownload then 1 else 999999)
    hasPassword := opts.passwordEnabled
    passwordHash := passwordHash
    salt := salt
    isOneTime := opts.onetimeDownload
    uploadStatus := "completed"
    multipartUploadId := none }

/-- Cleanup configuration (`CleanupConfig` of `CleanupWorker/src/index.ts`);
only the fields the file-cleanup step reads are modelled. -/
structure CleanupConfig where
  batchSize : Nat
  maxExecutionTime : Int
deriving DecidableEq, Repr

/-- The sweep counters (`CleanupStats`); `rateLimitEntriesDeleted` and the
execution-time stamp belong to steps outside the claims. -/
structure CleanupStats where
  filesProcessed : Nat
  filesDeleted : Nat
  storageSpaceFreed : Nat
  errors : Nat
deriving DecidableEq, Repr

/-- The candidate predicate of the cleanup query:
`expires_at < ? OR (is_one_time = 1 AND download_count > 0) OR download_count >= max_downloads`. -/
def eligibleForCleanup (now : Int) (r : FileRecord) : Bool :=
  decide (r.expiresAt < now) ||
  (r.isOneTime && decide (0 < r.downloadCount)) ||
  decide (r.maxDownloads ≤ r.downloadCount)

/-- Insertion step for `ORDER BY expires_at ASC`. -/
def insertByExpiry (r : FileRecord) : List FileRecord → List FileRecord
  | [] => [r]
  | x :: xs =>
    if decide (r.expiresAt ≤ x.expiresAt) then r :: x :: xs
    else x :: insertByExpiry r xs

/-- `ORDER BY expires_at ASC` of the cleanup query, as an insertion sort. -/
def sortByExpiry : List FileRecord → List FileRecord
  | [] => []
  | x :: xs => insertByExpiry x (sortByExpiry xs)

/-- The per-file loop body of `processBatch`: R2 `delete(file_name)` — on a
successful call `filesDeleted` and `storageSpaceFreed` are bumped, on a
thrown error `errors` is bumped — and in BOTH branches the record's id is
pushed onto `filesToDeleteFromDB` ("Still mark for database deletion since
file might not exist in storage").  Returns the updated stats and the
accumulated id list. -/
def processFiles (deleteOk : String → Bool) :
    List FileRecord → CleanupStats → List String → CleanupStats × List String
  | [], stats, marked => (stats, marked)
  | f :: rest, stats, marked =>
    if deleteOk f.fileName then
      processFiles deleteOk rest
        { stats with
          filesDeleted := stats.filesDeleted + 1
          storageSpaceFreed := stats.storageSpaceFreed + f.fileSize }
        (marked ++ [f.fileId])
    else
      processFiles deleteOk rest
        { stats with errors := stats.errors + 1 }
        (marked ++ [f.fileId])

/-- `processBatch` of `CleanupWorker/src/index.ts`: delete each file's object
(best effort), then — when any ids were marked — one batched
`DELETE FROM uploads_v2 WHERE file_id IN (...)`.  A successful R2 delete also
removes the key from the bucket.  The third component is the
`filesToDeleteFromDB` list.  The batched metadata delete succeeding is part
of the pure model; its own failure path only bumps `errors`. -/
def processBatch (deleteOk : String → Bool) (files : List FileRecord)
    (stats : CleanupStats) (st : Stores) : CleanupStats × Stores × List String :=
  let res := processFiles deleteOk files stats []
  let marked := res.2
  let bucket1 := st.bucket.filter
    (fun k => !(files.any (fun f => f.fileName == k && deleteOk f.fileName)))
  let db1 := if marked.isEmpty then st.db
    else st.db.filter (fun r => !(marked.contains r.fileId))
  (res.1, { st with db := db1, bucket := bucket1 }, marked)

/-- Structural worker for `chunksOf`: the first argument is fuel, always
called with more fuel than the list is long, so the fuel-exhausted branch is
unreachable. -/
def chunksOfAux : Nat → Nat → List FileRecord → List (List FileRecord)
  | _, _, [] => []
  | _, 0, xs => [xs]
  | 0, _ + 1, _ :: _ => []
  | fuel + 1, n + 1, x :: xs => (x :: xs.take n) :: chunksOfAux fuel (n + 1) (xs.drop n)

/-- Batch slicing of the candidate list: the JS loop
`for (i = 0; i < n; i += batchSize) slice(i, i + batchSize)`.
A `batchSize` of zero would loop forever in the source; it is mapped to a
single slice here and never used by the claims. -/
def chunksOf (n : Nat) (xs : List FileRecord) : List (List FileRecord) :=
  chunksOfAux (xs.length + 1) n xs

/-- The batch loop of `cleanupExpiredFiles`.  After each `processBatch` the
source computes `const elapsed = Date.now() - Date.now();` and breaks when
`elapsed > config.maxExecutionTime * 0.8`.  The two clock reads of one
iteration are modelled as consecutive readings `clock (2*k)` (left operand,
read first) and `clock (2*k+1)`; the threshold multiplication is integer
`* 8 / 10`, which has the sign of the float original and agrees with it on
the values the claims use. -/
def runBatches (deleteOk : String → Bool) (clock : Nat → Int)
    (cfg : CleanupConfig) :
    List (List FileRecord) → Nat → CleanupStats → Stores → CleanupStats × Stores
  | [], _, stats, st => (stats, st)
  | b :: rest, k, stats, st =>
    let res := processBatch deleteOk b stats st
    let elapsed := clock (2 * k) - clock (2 * k + 1)
    if decide (elapsed > cfg.maxExecutionTime * 8 / 10) then (res.1, res.2.1)
    else runBatches deleteOk clock cfg rest (k + 1) res.1 res.2.1

/-- `cleanupExpiredFiles` of `CleanupWorker/src/index.ts`: query up to
`batchSize * 2` candidates ordered by `expires_at` ascending, set
`stats.filesProcessed` to the candidate count BEFORE any batch runs, return
if there are none, and otherwise run the batch loop. -/
def cleanupExpiredFiles (deleteOk : String → Bool) (clock : Nat → Int)
    (cfg : CleanupConfig) (now : Int) (st : Stores) : CleanupStats × Stores :=
  let candidates :=
    (sortByExpiry (st.db.filter (eligibleForCleanup now))).take (cfg.batchSize * 2)
  let stats0 : CleanupStats :=
    { filesProcessed := candidates.length
      filesDeleted := 0
      storageSpaceFreed := 0
      errors := 0 }
  if candidates.isEmpty then (stats0, st)
  else runBatches deleteOk clock cfg (chunksOf cfg.batchSize candidates) 0 stats0 st

/-! Concrete fixtures used by the closed theorems and witnesses below.
`catHash` stands in for the hashing black box where a concrete function is
needed; none of the closed statements depend on its cryptographic nature. -/

/-- Concrete stand-in for the password-hash black box. -/
def catHash : String → String → String := fun p s => p ++ s

/-- An empty state, used by witnesses that need no records. -/
def demoStores : Stores := { db := [], bucket := [], sessions := [] }

/-- A minimal initiate-multipart request (no password, no explicit options). -/
def mpReq : MultipartUploadRequest :=
  { fileName := "doc.pdf"
    fileSize := 100
    contentType := "application/pdf"
    options := { lifetime := none, password := none, maxDownloads := none } }

/-- The fileId of the in-progress upload in the C1 scenario; UUID-shaped, as
produced by `crypto.randomUUID()`. -/
def c1FileId : String := "0a1b2c3d-0000-4000-8000-000000000000"

/-- The row inserted by initiating a chunked upload at time 1000: it has
`uploadStatus = "uploading"` and is the concrete record on which the
visibility claim fails. -/
def c1Record : FileRecord :=
  (initiateMultipartUpload catHash c1FileId "stor-key-1" "mpu-1" "salt1" mpReq 1000).1

/-- An already expired, completed record for the sweep scenario. -/
def c4Record : FileRecord :=
  { fileId := "f4"
    fileName := "k4"
    originalName := "o4"
    fileSize := 5
    contentType := "text/plain"
    expiresAt := 0
    downloadCount := 0
    maxDownloads := 999999
    hasPassword := false
    passwordHash := ""
    salt := ""
    isOneTime := false
    uploadStatus := "completed"
    multipartUploadId := none }

/-- Sweep configuration with a zero time budget. -/
def c4Config : CleanupConfig := { batchSize := 50, maxExecutionTime := 0 }

/-- The sweep of the C4 scenario: one expired candidate, a constant clock,
every object delete succeeding, `maxExecutionTime = 0`. -/
def c4Result : CleanupStats × Stores :=
  cleanupExpiredFiles (fun _ => true) (fun _ => 100) c4Config 100
    { db := [c4Record], bucket := ["k4"], sessions := [] }

/-- A chunked upload initiated at time 1000 with default options, for the
expiry-assignment scenario. -/
def c5Init : FileRecord × InitiateResponse :=
  initiateMultipartUpload catHash "11111111-2222-4333-8444-555555555555"
    "stor-key-5" "mpu-5" "salt5" mpReq 1000

/-- The row of an in-progress chunked upload for the abort scenario. -/
def c6Record : FileRecord :=
  (initiateMultipartUpload catHash "66666666-6666-4666-8666-666666666666"
    "stor-key-6" "mpu-6" "salt6" mpReq 500).1

/-- State holding the C6 session: its row and its open store session. -/
def c6Stores : Stores := { db := [c6Record], bucket := [], sessions := ["mpu-6"] }

/-- A 200 MiB initiate request, which the coordinator splits into exactly
4 chunks of `CHUNK_SIZE`. -/
def c3Request : MultipartUploadRequest :=
  { fileName := "big.zip"
    fileSize := 209715200
    contentType := "application/zip"
    options := { lifetime := none, password := none, maxDownloads := none } }

/-- The row of the 4-chunk session of the completeness scenario. -/
def c3Record : FileRecord :=
  (initiateMultipartUpload catHash "33333333-3333-4333-8333-333333333333"
    "stor-key-3" "mpu-3" "salt3" c3Request 0).1

/-- A gapped part list: part 3 of 4 is missing. -/
def c3Parts : List Part :=
  [{ partNumber := 1, etag := "e1" }
   , { partNumber := 2, etag := "e2" }
   , { partNumber := 4, etag := "e4" }]

/-- A completed but expired record, used to exercise the evaluation order. -/
def c7Record : FileRecord :=
  { fileId := "77777777-7777-4777-8777-777777777777"
    fileName := "k7"
    originalName := "o7"
    fileSize := 7
    contentType := "text/plain"
    expiresAt := 10
    downloadCount := 0
    maxDownloads := 5
    hasPassword := false
    passwordHash := ""
    salt := ""
    isOneTime := false
    uploadStatus := "completed"
    multipartUploadId := none }

/-- State holding the expired record and its object. -/
def c7Stores : Stores := { db := [c7Record], bucket := ["k7"], sessions := [] }

/-- A record whose object delete will fail in the orphan-row scenario. -/
def c8Record : FileRecord :=
  { fileId := "f8"
    fileName := "k8"
    originalName := "o8"
    fileSize := 8
    contentType := "text/plain"
    expiresAt := 0
    downloadCount := 0
    maxDownloads := 1
    hasPassword := false
    passwordHash := ""
    salt := ""
    isOneTime := false
    uploadStatus := "completed"
    multipartUploadId := none }

/-- Fresh sweep counters. -/
def c8Stats : CleanupStats :=
  { filesProcessed := 0, filesDeleted := 0, storageSpaceFreed := 0, errors := 0 }

/-- State holding the orphan-scenario record (its object is absent). -/
def c8Stores : Stores := { db := [c8Record], bucket := [], sessions := [] }

/-- Simple-upload options with a one-time flag and no explicit
`maxDownloads`. -/
def c10SimpleOptions : SimpleOptions :=
  { lifetime := "7"
    passwordEnabled := false
    password := none
    maxDownloads := none
    onetimeDownload := true }

theorem downloadGuardFires_true_eq_false (changes : Nat) :
    downloadGuardFires true changes = false := by
  cases changes <;> simp [downloadGuardFires, numTruthy]

theorem credEmpty_eq_isNone (cred : Option String) (h : cred ≠ some "") :
    (cred.getD "" == "") = cred.isNone := by
  cases cred with
  | none => rfl
  | some p =>
    have hp : p ≠ "" := fun hc => h (by rw [hc])
    simp [Option.getD, Option.isNone, hp]

theorem setUploadStatus_mem (db : List FileRecord) (uploadId status : String)
    (r2 : FileRecord) (h : r2 ∈ setUploadStatus db uploadId status)
    (hmid : r2.multipartUploadId = some uploadId) : r2.uploadStatus = status := by
  simp only [setUploadStatus, List.mem_map] at h
  obtain ⟨x, _, rfl⟩ := h
  by_cases hc : x.multipartUploadId = some uploadId
  · simp [hc]
  · simp [hc] at hmid

theorem findRecord_filter_out (db : List FileRecord) (fid : String) :
    findRecord (db.filter (fun r => !(r.fileId == fid))) fid = none := by
  rw [findRecord, List.find?_eq_none]
  intro x hx
  simp only [List.mem_filter, Bool.not_eq_true', beq_eq_false_iff_ne] at hx
  simp [hx.2]

theorem processFiles_marked (deleteOk : String → Bool) :
    ∀ (files : List FileRecord) (stats : CleanupStats) (acc : List String),
      (processFiles deleteOk files stats acc).2
        = acc ++ files.map (fun f => f.fileId) := by
  intro files
  induction files with
  | nil => intro stats acc; simp [processFiles]
  | cons f rest ih =>
    intro stats acc
    unfold processFiles
    split <;> simp [ih]

theorem downloadPost_nfis_state (hash : String → String → String) (st : Stores)
    (now : Int) (fid : String) (pw : Option String)
    (h : (downloadPost hash st now fid pw).1 = .notFoundInStorage) :
    (downloadPost hash st now fid pw).2.db
      = st.db.filter (fun r => !(r.fileId == fid)) := by
  revert h
  unfold downloadPost
  repeat' split
  all_goals intro h
  all_goals first
    | rfl
    | simp [downloadGuardFires_true_eq_false] at h

/-- Claim C1.  The claim states that a record with
`uploadStatus ≠ "completed"` is treated as NotFound by the gate.  On the
code this fails: the validate endpoint's query filters on `file_id` only, so
the record inserted by initiating a chunked upload — `uploadStatus`
`"uploading"`, future expiry, zero downloads, no password — is found and
passes every check, and validate answers with the success payload (Granted)
while the transfer is still in progress. -/
theorem uploading_record_granted_by_validate :
    c1Record.uploadStatus = "uploading" ∧
    validatePost catHash [c1Record] 1000 c1FileId none = .ok c1Record := by
  exact ⟨rfl, by decide⟩

/-- Claim C2.  The claim states that a conditional count update affecting
zero rows fails the download with LimitReached and withholds the body.  On
the code the zero-rows branch is dead: the guard
`!success || (changes && changes === 0)` is false for EVERY `changes` value
once the statement itself succeeded — for `changes = 0` the conjunction
short-circuits to the falsy `0` — so the download handler can never return
its count-update failure response, and the body is streamed even when the
update matched zero rows. -/
theorem download_zero_rows_guard_is_dead :
    (∀ changes : Nat, downloadGuardFires true changes = false) ∧
    ∀ (hash : String → String → String) (st : Stores) (now : Int)
      (fid : String) (pw : Option String),
      (downloadPost hash st now fid pw).1 ≠ .downloadFailed := by
  refine ⟨downloadGuardFires_true_eq_false, ?_⟩
  intro hash st now fid pw
  unfold downloadPost
  repeat' split
  all_goals simp_all [downloadGuardFires_true_eq_false]

/-- Claim C4.  The claim states the sweep checks elapsed time before each
batch, so `maxExecutionTime = 0` processes zero batches and reports
`filesProcessed = 0`.  On the code: `filesProcessed` is set to the full
candidate count before any batch, the first batch always runs, and the
elapsed time is computed as `Date.now() - Date.now()`, so with a zero budget
and one expired record the sweep still processes and deletes it. -/
theorem sweep_ignores_time_budget :
    c4Result.1.filesProcessed = 1 ∧
    c4Result.1.filesDeleted = 1 ∧
    c4Result.2.db = [] ∧
    c4Result.2.bucket = [] := by decide

/-- Claim C5 counterexample.  At initiation time 1000 with the default
7-day lifetime, the inserted row already carries its final
`expiresAt = 1000 + 7*86400` while `uploadStatus` is still `"uploading"` —
before any byte has been transferred — and completing the upload leaves that
value untouched.  This refutes "never at initiation". -/
theorem expiry_set_at_initiation_cex :
    c5Init.1.uploadStatus = "uploading" ∧
    c5Init.1.expiresAt = 1000 + 7 * 86400 ∧
    (completeMultipartUpload (fun _ => true) [c5Init.1] "mpu-5" []).2.1.map
      (fun r => r.expiresAt) = [1000 + 7 * 86400] := by decide

/-- Claim C5 as amended: `expiresAt` is assigned exactly once and never
recomputed, but for a chunked upload the assignment happens at initiation
(`now + lifetime * 24*60*60` stored in the INSERT), and completion changes
`upload_status` only, preserving every row's `expiresAt`. -/
theorem expiry_assigned_once_at_initiation :
    (∀ (hash : String → String → String) (fid sname uid salt : String)
       (req : MultipartUploadRequest) (now : Int),
       (initiateMultipartUpload hash fid sname uid salt req now).1.expiresAt
         = now + (jsOrNat req.options.lifetime 7 : Int) * 24 * 60 * 60 ∧
       (initiateMultipartUpload hash fid sname uid salt req now).1.uploadStatus
         = "uploading") ∧
    (∀ (storeAccepts : List Part → Bool) (db : List FileRecord)
       (uploadId : String) (parts : List Part),
       (completeMultipartUpload storeAccepts db uploadId parts).2.1.map
         (fun r => r.expiresAt) = db.map (fun r => r.expiresAt)) := by
  refine ⟨fun hash fid sname uid salt req now => ⟨rfl, rfl⟩, ?_⟩
  intro storeAccepts db uploadId parts
  unfold completeMultipartUpload
  split
  · rfl
  split
  · rfl
  all_goals
    split
    all_goals
      simp only [setUploadStatus, List.map_map]
      exact List.map_congr_left (fun r _ => by dsimp only [Function.comp]; split <;> rfl)

/-- Claim C6 counterexample.  Aborting the same session twice does not
return Ack both times: the second call finds no row with
`upload_status = 'uploading'` and answers with the 404 "Upload not found"
error; an abort on a session already in the `'failed'` state gets the same
404 instead of succeeding. -/
theorem abort_second_call_not_ack :
    (abortMultipartUpload (fun _ => true) c6Stores "mpu-6").1 = .aborted ∧
    (abortMultipartUpload (fun _ => true)
      (abortMultipartUpload (fun _ => true) c6Stores "mpu-6").2 "mpu-6").1
      = .uploadNotFound ∧
    (abortMultipartUpload (fun _ => true)
      { c6Stores with db := [{ c6Record with uploadStatus := "failed" }] }
      "mpu-6").1 = .uploadNotFound := by decide

/-- Claim C3 counterexample.  For the 4-chunk session (200 MiB at 50 MiB
chunk size) and the gapped part list `[1, 2, 4]`, the coordinator performs no
completeness validation: it hands the store the list as-is, and when the
store accepts it the row is marked `"completed"` — no IncompletePartSet, no
`uploading`/`failed` status. -/
theorem complete_accepts_gapped_parts :
    (initiateMultipartUpload catHash "33333333-3333-4333-8333-333333333333"
      "stor-key-3" "mpu-3" "salt3" c3Request 0).2.totalChunks = 4 ∧
    c3Parts.map (fun p => p.partNumber) = [1, 2, 4] ∧
    (completeMultipartUpload (fun _ => true) [c3Record] "mpu-3" c3Parts).1
      = .completed "33333333-3333-4333-8333-333333333333" ∧
    (completeMultipartUpload (fun _ => true) [c3Record] "mpu-3" c3Parts).2.1.map
      (fun r => r.uploadStatus) = ["completed"] := by decide

/-- Claim C9.  A fileId that does not have the case-insensitive
8-4-4-4-12 hex shape is rejected by both endpoints with the INVALID_FILE_ID
error before any store operation, and the request leaves the stores exactly
as they were. -/
theorem invalid_file_id_rejected_without_store_access
    (hash : String → String → String) (st : Stores) (now : Int)
    (fid : String) (pw : Option String) (h : uuidShape fid = false) :
    downloadPost hash st now fid pw = (.invalidFileId, st) ∧
    validatePost hash st.db now fid pw = .invalidFileId := by
  constructor
  · unfold downloadPost
    by_cases h0 : fid = "" <;> simp [h0, h]
  · unfold validatePost
    by_cases h0 : fid = "" <;> simp [h0, h]

/-- Witness for claim C9 at the concrete fileId `"not-a-uuid"`. -/
theorem invalid_file_id_rejected_without_store_access_witness :
    downloadPost catHash demoStores 0 "not-a-uuid" none = (.invalidFileId, demoStores) ∧
    validatePost catHash demoStores.db 0 "not-a-uuid" none = .invalidFileId :=
  invalid_file_id_rejected_without_store_access catHash demoStores 0
    "not-a-uuid" none (by decide)

/-- Claim C3 as amended: `completeChunked` performs no completeness
validation and no sorting — the caller's parts list is forwarded verbatim to
the object store's completion API, and the store's verdict alone decides the
outcome: acceptance marks every row of the session `"completed"` (even for a
gapped set), rejection marks them `"failed"`.  Only a session found with
`upload_status = 'uploading'` gets this far. -/
theorem complete_forwards_parts_unvalidated (storeAccepts : List Part → Bool)
    (db : List FileRecord) (uploadId : String) (parts : List Part)
    (r : FileRecord) (hne : uploadId ≠ "")
    (hfind : db.find? (uploadingRow uploadId) = some r) :
    (completeMultipartUpload storeAccepts db uploadId parts).2.2 = some parts ∧
    (storeAccepts parts = true →
      (completeMultipartUpload storeAccepts db uploadId parts).1
        = .completed r.fileId ∧
      ∀ r2 ∈ (completeMultipartUpload storeAccepts db uploadId parts).2.1,
        r2.multipartUploadId = some uploadId → r2.uploadStatus = "completed") ∧
    (storeAccepts parts = false →
      (completeMultipartUpload storeAccepts db uploadId parts).1
        = .completeFailed ∧
      ∀ r2 ∈ (completeMultipartUpload storeAccepts db uploadId parts).2.1,
        r2.multipartUploadId = some uploadId → r2.uploadStatus = "failed") := by
  have hbeq : (uploadId == "") = false := by simp [hne]
  by_cases hsa : storeAccepts parts = true
  · have hres : completeMultipartUpload storeAccepts db uploadId parts
        = (.completed r.fileId, setUploadStatus db uploadId "completed", some parts) := by
      unfold completeMultipartUpload
      simp [hbeq, hfind, hsa]
    refine ⟨by rw [hres], fun _ => ⟨by rw [hres], ?_⟩, fun hf => absurd hsa (by simp [hf])⟩
    rw [hres]
    exact fun r2 h2 hm => setUploadStatus_mem db uploadId "completed" r2 h2 hm
  · have hsa' : storeAccepts parts = false := by simpa using hsa
    have hres : completeMultipartUpload storeAccepts db uploadId parts
        = (.completeFailed, setUploadStatus db uploadId "failed", some parts) := by
      unfold completeMultipartUpload
      simp [hbeq, hfind, hsa']
    refine ⟨by rw [hres], fun ht => absurd ht hsa, fun _ => ⟨by rw [hres], ?_⟩⟩
    rw [hres]
    exact fun r2 h2 hm => setUploadStatus_mem db uploadId "failed" r2 h2 hm

/-- Witness for the amended claim C3 at the concrete 4-chunk session and the
gapped parts `[1, 2, 4]`. -/
theorem complete_forwards_parts_unvalidated_witness :
    (completeMultipartUpload (fun _ => true) [c3Record] "mpu-3" c3Parts).2.2
      = some c3Parts ∧
    (completeMultipartUpload (fun _ => true) [c3Record] "mpu-3" c3Parts).1
      = .completed c3Record.fileId :=
  let h := complete_forwards_parts_unvalidated (fun _ => true) [c3Record]
    "mpu-3" c3Parts c3Record (by decide) (by decide)
  ⟨h.1, (h.2.1 rfl).1⟩

/-- Claim C6 as amended: abort succeeds only on a session whose row still
has `upload_status = 'uploading'`.  The first abort (store abort succeeding)
returns Ack, deletes every row of the session and closes the store session;
the second abort of the same handle answers with the 404 Upload-not-found
error — not Ack — and changes nothing.  A handle without an `'uploading'`
row (already aborted, or in the `'failed'` state) always gets that 404. -/
theorem abort_only_in_uploading_state (abortOk : String → Bool) (st : Stores)
    (uploadId : String) (r : FileRecord)
    (hfind : st.db.find? (uploadingRow uploadId) = some r)
    (hok : abortOk uploadId = true) (hne : uploadId ≠ "") :
    (abortMultipartUpload abortOk st uploadId).1 = .aborted ∧
    (∀ r2 ∈ (abortMultipartUpload abortOk st uploadId).2.db,
      r2.multipartUploadId ≠ some uploadId) ∧
    uploadId ∉ (abortMultipartUpload abortOk st uploadId).2.sessions ∧
    abortMultipartUpload abortOk (abortMultipartUpload abortOk st uploadId).2
      uploadId = (.uploadNotFound, (abortMultipartUpload abortOk st uploadId).2) ∧
    (∀ (st2 : Stores), st2.db.find? (uploadingRow uploadId) = none →
      abortMultipartUpload abortOk st2 uploadId = (.uploadNotFound, st2)) := by
  have hbeq : (uploadId == "") = false := by simp [hne]
  have hres : abortMultipartUpload abortOk st uploadId
      = (.aborted,
         { st with
           db := st.db.filter (fun x => !(x.multipartUploadId == some uploadId))
           sessions := st.sessions.filter (fun s => !(s == uploadId)) }) := by
    unfold abortMultipartUpload
    simp [hbeq, hfind, hok]
  have hmiss : ∀ (st2 : Stores), st2.db.find? (uploadingRow uploadId) = none →
      abortMultipartUpload abortOk st2 uploadId = (.uploadNotFound, st2) := by
    intro st2 h2
    unfold abortMultipartUpload
    simp [hbeq, h2]
  have hnone : (st.db.filter
      (fun x => !(x.multipartUploadId == some uploadId))).find?
        (uploadingRow uploadId) = none := by
    rw [List.find?_eq_none]
    intro x hx
    simp only [List.mem_filter, Bool.not_eq_true', beq_eq_false_iff_ne] at hx
    simp [uploadingRow, hx.2]
  refine ⟨by rw [hres], ?_, ?_, ?_, hmiss⟩
  · rw [hres]
    intro r2 h2
    simp only [List.mem_filter, Bool.not_eq_true', beq_eq_false_iff_ne] at h2
    exact h2.2
  · rw [hres]
    intro hmem
    simp only [List.mem_filter, Bool.not_eq_true', beq_eq_false_iff_ne] at hmem
    exact hmem.2 rfl
  · rw [hres]
    exact hmiss _ hnone

/-- Witness for the amended claim C6 at the concrete session `"mpu-6"`. -/
theorem abort_only_in_uploading_state_witness :
    (abortMultipartUpload (fun _ => true) c6Stores "mpu-6").1 = .aborted ∧
    "mpu-6" ∉ (abortMultipartUpload (fun _ => true) c6Stores "mpu-6").2.sessions :=
  let h := abort_only_in_uploading_state (fun _ => true) c6Stores "mpu-6"
    c6Record (by decide) rfl (by decide)
  ⟨h.1, h.2.2.1⟩

/-- Claim C8.  The collector's `processBatch` pushes every record of the
batch onto the batched metadata delete regardless of the object-delete
outcome, so after the batch no row with that record's id survives; and a
download that finds the object missing deletes the metadata row before
returning its 404, so the row is gone from the resulting state. -/
theorem missing_object_row_removed :
    (∀ (deleteOk : String → Bool) (files : List FileRecord)
       (stats : CleanupStats) (st : Stores) (f : FileRecord), f ∈ files →
       f.fileId ∈ (processBatch deleteOk files stats st).2.2 ∧
       findRecord (processBatch deleteOk files stats st).2.1.db f.fileId = none) ∧
    (∀ (hash : String → String → String) (st : Stores) (now : Int)
       (fid : String) (pw : Option String),
       (downloadPost hash st now fid pw).1 = .notFoundInStorage →
       findRecord (downloadPost hash st now fid pw).2.db fid = none) := by
  constructor
  · intro deleteOk files stats st f hf
    have hmarked : (processBatch deleteOk files stats st).2.2
        = files.map (fun g => g.fileId) := by
      simp [processBatch, processFiles_marked]
    have hid : f.fileId ∈ files.map (fun g => g.fileId) :=
      List.mem_map_of_mem _ hf
    refine ⟨by rw [hmarked]; exact hid, ?_⟩
    have hdb : (processBatch deleteOk files stats st).2.1.db
        = st.db.filter
          (fun r => !((files.map (fun g => g.fileId)).contains r.fileId)) := by
      have hne : (files.map (fun g => g.fileId)).isEmpty = false := by
        cases files with
        | nil => exact absurd hf (List.not_mem_nil f)
        | cons a l => rfl
      simp [processBatch, processFiles_marked, hne]
    rw [hdb, findRecord, List.find?_eq_none]
    intro x hx
    simp only [List.mem_filter] at hx
    have hxid : x.fileId ∉ files.map (fun g => g.fileId) := by
      simpa using hx.2
    simp only [beq_iff_eq]
    intro hbeq
    rw [hbeq] at hxid
    exact hxid hid
  · intro hash st now fid pw h
    rw [downloadPost_nfis_state hash st now fid pw h]
    exact findRecord_filter_out st.db fid

/-- Witness for claim C8: a batch whose only record's object delete fails
still removes the metadata row. -/
theorem missing_object_row_removed_witness :
    c8Record.fileId ∈ (processBatch (fun _ => false) [c8Record] c8Stats c8Stores).2.2 ∧
    findRecord (processBatch (fun _ => false) [c8Record] c8Stats c8Stores).2.1.db
      c8Record.fileId = none :=
  missing_object_row_removed.1 (fun _ => false) [c8Record] c8Stats c8Stores
    c8Record (by decide)

/-- Claim C10.  With no uploader-supplied `maxDownloads` (absent or `0`,
both falsy), the simple upload endpoint stores `1` for a one-time file and
`999999` otherwise (and stores the one-time flag as given), while the
chunked initiation stores `10` and leaves `is_one_time` at the schema
default `FALSE`. -/
theorem upload_default_max_downloads (hash : String → String → String)
    (fid fname oname ctype salt : String) (fsize : Nat) (ctime : Int)
    (sopts : SimpleOptions) (fid2 sname uid salt2 : String)
    (req : MultipartUploadRequest) (now : Int)
    (hs : sopts.maxDownloads = none ∨ sopts.maxDownloads = some 0)
    (hc : req.options.maxDownloads = none ∨ req.options.maxDownloads = some 0) :
    (simpleUploadRecord hash fid fname oname fsize ctype salt ctime sopts).maxDownloads
      = (if sopts.onetimeDownload then 1 else 999999) ∧
    (simpleUploadRecord hash fid fname oname fsize ctype salt ctime sopts).isOneTime
      = sopts.onetimeDownload ∧
    (initiateMultipartUpload hash fid2 sname uid salt2 req now).1.maxDownloads = 10 ∧
    (initiateMultipartUpload hash fid2 sname uid salt2 req now).1.isOneTime = false := by
  refine ⟨?_, rfl, ?_, rfl⟩
  · rcases hs with h | h <;> simp [simpleUploadRecord, jsOrNat, h]
  · rcases hc with h | h <;> simp [initiateMultipartUpload, jsOrNat, h]

/-- Claim C7.  Both the validate endpoint and the download endpoint decide
access in the claimed fixed short-circuit order, formalised by
`authorizeSpec`: non-existence gives NotFound, then expiry, one-time
consumption, the download limit, missing credential, wrong credential, and
otherwise Granted.  Every non-Granted decision maps to the endpoint's
corresponding error (download also leaves the state untouched there); when
the decision is Granted, validate returns the record's metadata, and
download either streams the body or hits the storage-miss path, which lies
beyond the gate.  A supplied credential is assumed nonempty: at the HTTP
layer an empty password string is indistinguishable from none. -/
theorem authorize_evaluation_order (hash : String → String → String)
    (st : Stores) (now : Int) (fid : String) (cred : Option String)
    (hfid : uuidShape fid = true) (hcred : cred ≠ some "") :
    (∀ d : AccessDecision, d ≠ .granted →
      authorizeSpec hash st.db now fid cred = d →
        validatePost hash st.db now fid cred = .err d ∧
        downloadPost hash st now fid cred = (outcomeOfDecision d, st)) ∧
    (authorizeSpec hash st.db now fid cred = .granted →
      ∃ r, findRecord st.db fid = some r ∧
        validatePost hash st.db now fid cred = .ok r ∧
        ((downloadPost hash st now fid cred).1 = .body r ∨
         (downloadPost hash st now fid cred).1 = .notFoundInStorage)) := by
  have hne : fid ≠ "" := by
    intro h
    rw [h] at hfid
    exact absurd hfid (by decide)
  have hbeq : (fid == "") = false := by simp [hne]
  have hpw : (cred.getD "" == "") = cred.isNone := credEmpty_eq_isNone cred hcred
  cases hr : findRecord st.db fid with
  | none =>
    have hspec : authorizeSpec hash st.db now fid cred = .notFound := by
      simp [authorizeSpec, hr]
    have hval : validatePost hash st.db now fid cred = .err .notFound := by
      simp [validatePost, hbeq, hfid, hr]
    have hdl : downloadPost hash st now fid cred = (.notFound, st) := by
      simp [downloadPost, hbeq, hfid, hr]
    constructor
    · intro d _ hd
      rw [hspec] at hd
      subst hd
      exact ⟨hval, by rw [hdl]; rfl⟩
    · intro hg
      rw [hspec] at hg
      exact absurd hg (by decide)
  | some r =>
    by_cases h1 : r.expiresAt < now
    · have hspec : authorizeSpec hash st.db now fid cred = .expired := by
        simp [authorizeSpec, hr, h1]
      have hval : validatePost hash st.db now fid cred = .err .expired := by
        simp [validatePost, hbeq, hfid, hr, h1]
      have hdl : downloadPost hash st now fid cred = (.expired, st) := by
        simp [downloadPost, hbeq, hfid, hr, h1]
      constructor
      · intro d _ hd
        rw [hspec] at hd
        subst hd
        exact ⟨hval, by rw [hdl]; rfl⟩
      · intro hg
        rw [hspec] at hg
        exact absurd hg (by decide)
    · by_cases h2 : (r.isOneTime && decide (0 < r.downloadCount)) = true
      · have hspec : authorizeSpec hash st.db now fid cred = .consumed := by
          simp [authorizeSpec, hr, h1, h2]
        have hval : validatePost hash st.db now fid cred = .err .consumed := by
          simp [validatePost, hbeq, hfid, hr, h1, h2]
        have hdl : downloadPost hash st now fid cred = (.consumed, st) := by
          simp [downloadPost, hbeq, hfid, hr, h1, h2]
        constructor
        · intro d _ hd
          rw [hspec] at hd
          subst hd
          exact ⟨hval, by rw [hdl]; rfl⟩
        · intro hg
          rw [hspec] at hg
          exact absurd hg (by decide)
      · by_cases h3 : r.maxDownloads ≤ r.downloadCount
        · have hspec : authorizeSpec hash st.db now fid cred = .limitReached := by
            simp [authorizeSpec, hr, h1, h2, h3]
          have hval : validatePost hash st.db now fid cred = .err .limitReached := by
            simp [validatePost, hbeq, hfid, hr, h1, h2, h3]
          have hdl : downloadPost hash st now fid cred = (.limitReached, st) := by
            simp [downloadPost, hbeq, hfid, hr, h1, h2, h3]
          constructor
          · intro d _ hd
            rw [hspec] at hd
            subst hd
            exact ⟨hval, by rw [hdl]; rfl⟩
          · intro hg
            rw [hspec] at hg
            exact absurd hg (by decide)
        · by_cases h4 : (r.hasPassword && cred.isNone) = true
          · have hspec : authorizeSpec hash st.db now fid cred = .passwordRequired := by
              simp [authorizeSpec, hr, h1, h2, h3, h4]
            have hval : validatePost hash st.db now fid cred = .err .passwordRequired := by
              simp [validatePost, hbeq, hfid, hr, h1, h2, h3, hpw, h4]
            have hdl : downloadPost hash st now fid cred = (.passwordRequired, st) := by
              simp [downloadPost, hbeq, hfid, hr, h1, h2, h3, hpw, h4]
            constructor
            · intro d _ hd
              rw [hspec] at hd
              subst hd
              exact ⟨hval, by rw [hdl]; rfl⟩
            · intro hg
              rw [hspec] at hg
              exact absurd hg (by decide)
          · by_cases h5 : (r.hasPassword && !(hash (cred.getD "") r.salt == r.passwordHash)) = true
            · have hspec : authorizeSpec hash st.db now fid cred = .invalidPassword := by
                simp [authorizeSpec, hr, h1, h2, h3, h4, h5]
              have hval : validatePost hash st.db now fid cred = .err .invalidPassword := by
                simp [validatePost, hbeq, hfid, hr, h1, h2, h3, hpw, h4, h5]
              have hdl : downloadPost hash st now fid cred = (.invalidPassword, st) := by
                simp [downloadPost, hbeq, hfid, hr, h1, h2, h3, hpw, h4, h5]
              constructor
              · intro d _ hd
                rw [hspec] at hd
                subst hd
                exact ⟨hval, by rw [hdl]; rfl⟩
              · intro hg
                rw [hspec] at hg
                exact absurd hg (by decide)
            · have hspec : authorizeSpec hash st.db now fid cred = .granted := by
                simp [authorizeSpec, hr, h1, h2, h3, h4, h5]
              have hval : validatePost hash st.db now fid cred = .ok r := by
                simp [validatePost, hbeq, hfid, hr, h1, h2, h3, hpw, h4, h5]
              constructor
              · intro d hd hdspec
                rw [hspec] at hdspec
                subst hdspec
                exact absurd rfl hd
              · intro _
                refine ⟨r, rfl, hval, ?_⟩
                by_cases h6 : r.fileName ∈ st.bucket
                · left
                  simp [downloadPost, hbeq, hfid, hr, h1, h2, h3, hpw, h4, h5, h6,
                    downloadGuardFires_true_eq_false]
                · right
                  simp [downloadPost, hbeq, hfid, hr, h1, h2, h3, hpw, h4, h5, h6]

/-- Witness for claim C7 on the concrete expired record: the spec-order
decision is Expired and both endpoints answer accordingly. -/
theorem authorize_evaluation_order_witness :
    validatePost catHash c7Stores.db 1000 "77777777-7777-4777-8777-777777777777"
      none = .err .expired ∧
    downloadPost catHash c7Stores 1000 "77777777-7777-4777-8777-777777777777"
      none = (.expired, c7Stores) := by
  have h := (authorize_evaluation_order catHash c7Stores 1000
    "77777777-7777-4777-8777-777777777777" none (by decide) (by decide)).1
    .expired (by decide) (by decide)
  exact ⟨h.1, h.2⟩

/-- Witness for claim C10 at concrete one-time simple options and the
default chunked request. -/
theorem upload_default_max_downloads_witness :
    (simpleUploadRecord catHash "f" "n" "o" 10 "text/plain" "s" 0
      c10SimpleOptions).maxDownloads = 1 ∧
    (initiateMultipartUpload catHash "f2" "sn" "u" "s2" mpReq 0).1.maxDownloads = 10 ∧
    (initiateMultipartUpload catHash "f2" "sn" "u" "s2" mpReq 0).1.isOneTime = false := by
  have h := upload_default_max_downloads catHash "f" "n" "o" "text/plain" "s"
    10 0 c10SimpleOptions "f2" "sn" "u" "s2" mpReq 0 (Or.inl rfl) (Or.inl rfl)
  exact ⟨by simpa using h.1, h.2.2.1, h.2.2.2⟩

end TMC
